import Mathlib

/-!
Shallow embedding of the Club Lit chat/presence subsystem.

Sources embedded:
- the Socket.IO presence logic of the server entry file
  (src/unnamed/part_001, `io.on("connection")`): `joinRoom` and `disconnect`;
- the REST message routes (src/server/routes/messages.js): send, list,
  edit, delete, and the `removeMember` path mounted there;
- the `removeMember` path of src/server/routes/clubs.js.

Identifiers are strings (Mongo ObjectIds serialized via `toString`), times
are integer milliseconds, and the document store is a triple of lists of
records keyed by their id fields.
-/

namespace ClubLit

/-- Presence state of the Socket.IO layer (src/unnamed/part_001):
`onlineUsers` is the process-wide `Map` from club id to the `Set` of online
user ids (a JS `Map` keeps insertion order of keys, a `Set` of values, both
modelled as lists without duplicates by construction); `socketUser` records
the `socket.userId = userId` assignment per connection id. -/
structure PresenceState where
  onlineUsers : List (String × List String)
  socketUser : List (String × String)
deriving DecidableEq, Repr

/-- Lookup in an association list, first match (JS `Map.get`). -/
def lookupA {α : Type} : List (String × α) → String → Option α
  | [], _ => none
  | (k, v) :: rest, key => if k = key then some v else lookupA rest key

/-- JS `Map.set`: update the value in place if the key exists, else append. -/
def setA {α : Type} : List (String × α) → String → α → List (String × α)
  | [], key, v => [(key, v)]
  | (k, w) :: rest, key, v =>
      if k = key then (k, v) :: rest else (k, w) :: setA rest key v

/-- JS `Set.add`: append the element if absent, otherwise leave unchanged. -/
def addUser (s : List String) (u : String) : List String :=
  if u ∈ s then s else s ++ [u]

/-- Combined `if (!onlineUsers.has(clubId)) onlineUsers.set(clubId, new Set())`
followed by `onlineUsers.get(clubId).add(userId)`: create the club entry
lazily, then add the user to its set. -/
def addOnline : List (String × List String) → String → String →
    List (String × List String)
  | [], c, u => [(c, [u])]
  | (k, s) :: rest, c, u =>
      if k = c then (k, addUser s u) :: rest else (k, s) :: addOnline rest c u

/-- Handler of `socket.on("joinRoom", ...)` (src/unnamed/part_001): a no-op
when either id is falsy (the empty string models a falsy id); otherwise it
records `socket.userId = userId` for the connection and adds the user to the
club's online set. The `socket.join(clubId)` broadcast-group call and the
two emits carry no presence state and are not modelled. -/
def joinRoom (st : PresenceState) (sid clubId userId : String) : PresenceState :=
  if clubId = "" ∨ userId = "" then st
  else
    { onlineUsers := addOnline st.onlineUsers clubId userId
      socketUser := setA st.socketUser sid userId }

/-- Handler of `socket.on("disconnect", ...)` (src/unnamed/part_001): for
every club entry it runs `users.delete(socket.userId)`. When the socket
never joined a room, `socket.userId` is undefined and the delete removes
nothing; otherwise the user id is removed from every club's online set,
with no counting of remaining connections. -/
def disconnect (st : PresenceState) (sid : String) : PresenceState :=
  match lookupA st.socketUser sid with
  | none => st
  | some uid =>
      { st with
        onlineUsers :=
          st.onlineUsers.map (fun p => (p.1, p.2.filter (fun x => x ≠ uid))) }

theorem lookupA_setA_self {α : Type} (m : List (String × α)) (k : String) (v : α) :
    lookupA (setA m k v) k = some v := by
  induction m with
  | nil => simp [setA, lookupA]
  | cons hd tl ih =>
      obtain ⟨k', v'⟩ := hd
      by_cases h : k' = k
      · simp [setA, lookupA, h]
      · simp [setA, lookupA, h, ih]

theorem setA_setA_self {α : Type} (m : List (String × α)) (k : String) (v : α) :
    setA (setA m k v) k v = setA m k v := by
  induction m with
  | nil => simp [setA]
  | cons hd tl ih =>
      obtain ⟨k', v'⟩ := hd
      by_cases h : k' = k
      · simp [setA, h]
      · simp [setA, h, ih]

theorem addUser_idem (s : List String) (u : String) :
    addUser (addUser s u) u = addUser s u := by
  unfold addUser
  by_cases h : u ∈ s
  · simp [h]
  · simp [h]

theorem addOnline_idem (m : List (String × List String)) (c u : String) :
    addOnline (addOnline m c u) c u = addOnline m c u := by
  induction m with
  | nil => simp [addOnline, addUser]
  | cons hd tl ih =>
      obtain ⟨k, s⟩ := hd
      by_cases h : k = c
      · simp [addOnline, h, addUser_idem]
      · simp [addOnline, h, ih]

/-- JS `String.prototype.trim`: strip whitespace from both ends. Defined
by structural recursion over the character list so that concrete calls
evaluate inside the kernel. -/
def jsTrim (s : String) : String :=
  ⟨((s.data.dropWhile Char.isWhitespace).reverse.dropWhile
      Char.isWhitespace).reverse⟩

/-- TIME_LIMIT_MS of src/server/routes/messages.js: the five-minute
edit/delete window in milliseconds. -/
def TIME_LIMIT_MS : Int := 5 * 60 * 1000

/-- Character accepted by a hexadecimal ObjectId digit. -/
def isHexChar (c : Char) : Bool :=
  c.isDigit || (("a" : String).front ≤ c && c ≤ ("f" : String).front)
    || (("A" : String).front ≤ c && c ≤ ("F" : String).front)

/-- Validity of a string as a Mongo ObjectId, mirroring
`mongoose.Types.ObjectId.isValid` on strings: any 12-character string, or a
24-character hexadecimal string. -/
def isValidObjectId (s : String) : Bool :=
  s.length == 12 || (s.length == 24 && s.data.all isHexChar)

/-- Chat message record. Fields are those set by `Message.create` in
src/server/routes/messages.js (`user`, `username`, `avatar`, `message`,
`clubId`, `timestamp`) plus the document id. The `deleted` flag is modelled
from the spec's wire shape, the Message schema file being absent from src;
no route in src ever writes it after creation. -/
structure Msg where
  id : String
  clubId : String
  user : String
  username : String
  avatar : String
  message : String
  timestamp : Int
  deleted : Bool
deriving DecidableEq, Repr

/-- Club record, the fields the embedded routes read: document id,
`createdBy` (creator id) and `members` (member ids, serialized strings). -/
structure ClubR where
  id : String
  createdBy : String
  members : List String
deriving DecidableEq, Repr

/-- User record, the fields the embedded routes read: document id,
`UserName`, `avatar`, `joinedClubs` and the `isAdmin` flag. -/
structure UserR where
  id : String
  username : String
  avatar : String
  joinedClubs : List String
  isAdmin : Bool
deriving DecidableEq, Repr

/-- Document store visible to the embedded routes: the User, Club and
Message collections. -/
structure St where
  clubs : List ClubR
  users : List UserR
  messages : List Msg
deriving DecidableEq, Repr

/-- Error taxonomy of the routes, by HTTP status: 400 `validation`,
404 `notFound`, 401 `auth`, 403 `permission`; each carries the response's
error message. -/
inductive Err where
  | validation (msg : String)
  | notFound (msg : String)
  | auth (msg : String)
  | permission (msg : String)
deriving DecidableEq, Repr

/-- `Club.findById`: the club whose document id matches. -/
def findClub (st : St) (id : String) : Option ClubR :=
  st.clubs.find? (fun c => c.id == id)

/-- `User.findById`: the user whose document id matches. -/
def findUser (st : St) (id : String) : Option UserR :=
  st.users.find? (fun u => u.id == id)

/-- `Message.findById`: the message whose document id matches. -/
def findMsg (st : St) (id : String) : Option Msg :=
  st.messages.find? (fun m => m.id == id)

/-- Saving a club document: replace the stored club with the given id. -/
def saveClub (clubs : List ClubR) (id : String) (c : ClubR) : List ClubR :=
  clubs.map (fun x => if x.id == id then c else x)

/-- Saving a user document: replace the stored user with the given id. -/
def saveUser (users : List UserR) (id : String) (u : UserR) : List UserR :=
  users.map (fun x => if x.id == id then u else x)

/-- Saving a message document: replace the stored message with the given
id, keeping its position (an in-place `doc.save()`). -/
def saveMsg (msgs : List Msg) (id : String) (m : Msg) : List Msg :=
  msgs.map (fun x => if x.id == id then m else x)

/-- Handler of `POST /` in src/server/routes/messages.js (sendMessage):
validates the trimmed text and the clubId format, requires the club to
exist and the sender to be in its member list, requires the user record
(401 otherwise), then appends a new message with the denormalized
username (`UserName || "Unknown User"`) and avatar (`avatar || ""`).
`now` is `Date.now()` and `newId` the id Mongo assigns. Returns the
updated store and the created message or the route's error. -/
def sendMessage (st : St) (userId clubId text : String) (now : Int)
    (newId : String) : St × Except Err Msg :=
  let trimmed := jsTrim text
  if trimmed = "" then (st, .error (.validation "Message text is required."))
  else if ¬ isValidObjectId clubId then
    (st, .error (.validation "Invalid clubId format."))
  else
    match findClub st clubId with
    | none => (st, .error (.notFound "Club not found."))
    | some club =>
        if userId ∉ club.members then
          (st, .error (.permission "You must be a member of this club to chat."))
        else
          match findUser st userId with
          | none =>
              (st, .error (.auth "User context missing. Please re-authenticate."))
          | some user =>
              let m : Msg :=
                { id := newId
                  clubId := clubId
                  user := userId
                  username := if user.username = "" then "Unknown User" else user.username
                  avatar := user.avatar
                  message := trimmed
                  timestamp := now
                  deleted := false }
              ({ st with messages := st.messages ++ [m] }, .ok m)

/-- Ascending-timestamp comparison used by `.sort(\x7b timestamp: 1 \x7d)`. -/
def tsLe (a b : Msg) : Prop := a.timestamp ≤ b.timestamp

instance : DecidableRel tsLe := fun a b => inferInstanceAs (Decidable (a.timestamp ≤ b.timestamp))

instance : IsTotal Msg tsLe := ⟨fun a b => Int.le_total a.timestamp b.timestamp⟩

instance : IsTrans Msg tsLe := ⟨fun _ _ _ h h' => le_trans h h'⟩

/-- Handler of `GET /:clubId` in src/server/routes/messages.js
(listMessages): computes the limit (`min(limitParam, 500)` when the parsed
limit is a finite positive number, else 200), validates the clubId format,
requires the club to exist and the requester to be a member, then returns
the club's messages sorted by ascending timestamp, truncated to the limit.
`limitParam` is the result of `Number.parseInt(req.query.limit, 10)`, with
`none` standing for NaN. -/
def listMessages (st : St) (userId clubId : String) (limitParam : Option Int) :
    Except Err (List Msg) :=
  let limit : Int :=
    match limitParam with
    | some n => if 0 < n then min n 500 else 200
    | none => 200
  if ¬ isValidObjectId clubId then .error (.validation "Invalid clubId format.")
  else
    match findClub st clubId with
    | none => .error (.notFound "Club not found.")
    | some club =>
        if userId ∉ club.members then
          .error (.permission "You must be a member of this club to view messages.")
        else
          .ok (((st.messages.filter (fun m => m.clubId == clubId)).insertionSort
            tsLe).take limit.toNat)

/-- Handler of `PUT /:id` in src/server/routes/messages.js (editMessage):
validates the trimmed text and the id format, requires the message to
exist, then requires the caller to be the author and the elapsed time
`now - timestamp` to be within TIME_LIMIT_MS; on success it overwrites the
`message` field in place (no other field, the timestamp included, is
written) and saves. Returns the updated store and the saved message or the
route's error. -/
def editMessage (st : St) (userId msgId text : String) (now : Int) :
    St × Except Err Msg :=
  let trimmed := jsTrim text
  if trimmed = "" then (st, .error (.validation "Message text is required."))
  else if ¬ isValidObjectId msgId then
    (st, .error (.validation "Invalid message id format."))
  else
    match findMsg st msgId with
    | none => (st, .error (.notFound "Message not found."))
    | some m =>
        if m.user ≠ userId then
          (st, .error (.permission "You can only edit your own messages."))
        else if now - m.timestamp > TIME_LIMIT_MS then
          (st, .error (.permission
            "Messages can only be edited within five minutes of sending."))
        else
          let m' : Msg := { m with message := trimmed }
          ({ st with messages := saveMsg st.messages msgId m' }, .ok m')

/-- Handler of `DELETE /:id` in src/server/routes/messages.js
(deleteMessage): validates the id format, requires the message and its club
to exist, then allows deletion iff the caller is an admin, the club's
creator, or the author within TIME_LIMIT_MS of sending; on success the
document is removed from the store (`findByIdAndDelete`). The caller is
`(userId, isAdmin)` as set by the auth middleware. -/
def deleteMessage (st : St) (userId : String) (isAdmin : Bool) (msgId : String)
    (now : Int) : St × Except Err Unit :=
  if ¬ isValidObjectId msgId then
    (st, .error (.validation "Invalid message id format."))
  else
    match findMsg st msgId with
    | none => (st, .error (.notFound "Message not found."))
    | some m =>
        match findClub st m.clubId with
        | none => (st, .error (.notFound "Club not found."))
        | some club =>
            let isOwner := m.user == userId
            let isClubCreator := club.createdBy == userId
            let withinEditWindow := now - m.timestamp ≤ TIME_LIMIT_MS
            if ¬ (isAdmin || isClubCreator || (isOwner && withinEditWindow)) then
              (st, .error (.permission
                "You do not have permission to delete this message."))
            else
              ({ st with messages := st.messages.filter (fun x => x.id ≠ msgId) },
                .ok ())

/-- Handler of `DELETE /removeMember/:clubId/:userId` in
src/server/routes/messages.js: validates both id formats, requires the club
to exist, requires the actor to be the club's creator or an admin, requires
the target to be in the member list; then it splices the target out of the
member list and saves the club BEFORE looking up the target's user record —
a missing user record yields a 404 after the club was already saved. On the
happy path it also filters the club out of the user's `joinedClubs` and
saves the user. -/
def removeMemberM (st : St) (actorId : String) (actorAdmin : Bool)
    (clubId targetId : String) : St × Except Err Unit :=
  if ¬ (isValidObjectId clubId && isValidObjectId targetId) then
    (st, .error (.validation "Invalid identifier format."))
  else
    match findClub st clubId with
    | none => (st, .error (.notFound "Club not found."))
    | some club =>
        if ¬ (club.createdBy == actorId) && ¬ actorAdmin then
          (st, .error (.permission "Only club creators or admins can remove members."))
        else if targetId ∉ club.members then
          (st, .error (.notFound "Member not found in club."))
        else
          let club' : ClubR := { club with members := club.members.erase targetId }
          let st1 : St := { st with clubs := saveClub st.clubs clubId club' }
          match findUser st1 targetId with
          | none => (st1, .error (.notFound "User not found."))
          | some member =>
              let member' : UserR :=
                { member with
                  joinedClubs := member.joinedClubs.filter (fun r => r ≠ clubId) }
              ({ st1 with users := saveUser st1.users targetId member' }, .ok ())

/-- Handler of `DELETE /:clubId/removeMember/:userId` in
src/server/routes/clubs.js: validates both id formats, requires the club to
exist, requires the actor to be the club's creator or an admin, requires
the target to be in the member list; then filters the target out of the
member list, saves the club, and issues a `findByIdAndUpdate` pulling the
club from the target's `joinedClubs` — a no-op when the user record is
missing; the route reports success either way. -/
def removeMemberC (st : St) (actorId : String) (actorAdmin : Bool)
    (clubId targetId : String) : St × Except Err Unit :=
  if ¬ (isValidObjectId clubId && isValidObjectId targetId) then
    (st, .error (.validation "Invalid ID format"))
  else
    match findClub st clubId with
    | none => (st, .error (.notFound "Club not found"))
    | some club =>
        if ¬ (club.createdBy == actorId || actorAdmin) then
          (st, .error (.permission
            "Only the club creator or an admin can remove members."))
        else if targetId ∉ club.members then
          (st, .error (.notFound "Member not found in club"))
        else
          let club' : ClubR :=
            { club with members := club.members.filter (fun x => x ≠ targetId) }
          let st1 : St := { st with clubs := saveClub st.clubs clubId club' }
          match findUser st1 targetId with
          | none => (st1, .ok ())
          | some member =>
              let member' : UserR :=
                { member with
                  joinedClubs := member.joinedClubs.filter (fun r => r ≠ clubId) }
              ({ st1 with users := saveUser st1.users targetId member' }, .ok ())

/-- Replacing every element matching `p` by a fixed element that itself
matches `p` makes `find? p` return that element, provided some element
matched before. -/
theorem find?_replace {α : Type} (p : α → Bool) (c' : α) (l : List α)
    (hp : p c' = true) (x : α) (h : l.find? p = some x) :
    (l.map (fun y => if p y then c' else y)).find? p = some c' := by
  induction l with
  | nil => simp [List.find?] at h
  | cons hd tl ih =>
      by_cases hhd : p hd = true
      · simp [List.find?_cons_of_pos, hhd, hp]
      · rw [List.find?_cons_of_neg _ (by simp [hhd])] at h
        simpa [List.map_cons, List.find?_cons_of_neg, hhd] using ih h

/-- Shared concrete store: one club whose creator is Alice, members Alice
and Bob, an unrelated admin account, and two messages sent at times 0
and 10. All ids are 12-character strings, hence valid ObjectIds. -/
def exSt : St :=
  { clubs := [{ id := "clubaaaaaaaa", createdBy := "useraaaaaaaa",
                members := ["useraaaaaaaa", "userbbbbbbbb"] }]
    users := [{ id := "useraaaaaaaa", username := "Alice", avatar := "",
                joinedClubs := ["clubaaaaaaaa"], isAdmin := false },
              { id := "userbbbbbbbb", username := "Bob", avatar := "",
                joinedClubs := ["clubaaaaaaaa"], isAdmin := false },
              { id := "adminaaaaaaa", username := "Admin", avatar := "",
                joinedClubs := [], isAdmin := true }]
    messages := [{ id := "mesgaaaaaaaa", clubId := "clubaaaaaaaa",
                   user := "useraaaaaaaa", username := "Alice", avatar := "",
                   message := "hello", timestamp := 0, deleted := false },
                 { id := "mesgbbbbbbbb", clubId := "clubaaaaaaaa",
                   user := "userbbbbbbbb", username := "Bob", avatar := "",
                   message := "hi", timestamp := 10, deleted := false }] }

/-- C9: joining a room twice with the same connection, club and user ids
leaves the presence state — in particular every club's online-user set —
exactly as after joining once; the JS `Set.add` and `Map.set` are
idempotent, so no duplicate entry for the user arises. -/
theorem joinRoom_idem (st : PresenceState) (sid clubId userId : String) :
    joinRoom (joinRoom st sid clubId userId) sid clubId userId =
      joinRoom st sid clubId userId := by
  unfold joinRoom
  by_cases h : clubId = "" ∨ userId = ""
  · simp [h]
  · simp [h, addOnline_idem, setA_setA_self]

/-- C2: with two connections "tab1" and "tab2" both joined to club "clubc"
for user "userx", the online set is \x7b"userx"\x7d; after "tab1" alone
disconnects, the handler's plain `Set.delete` has already evicted "userx"
from the club's online set even though "tab2" is still connected — the
code does not count connections per (club, user) pair. -/
theorem disconnect_evicts_multi_tab_user :
    (let s2 := joinRoom (joinRoom ⟨[], []⟩ "tab1" "clubc" "userx")
        "tab2" "clubc" "userx"
     lookupA s2.onlineUsers "clubc" = some ["userx"] ∧
       lookupA (disconnect s2 "tab1").onlineUsers "clubc" = some []) := by
  constructor <;> rfl

/-- C1 counterexample: the platform administrator removes the club's
creator Alice via the clubs-route removeMember and the call succeeds,
leaving the member list without the creator — the route checks only the
actor's authorization and never compares the target to `createdBy`. -/
theorem removeMember_removes_creator_cex :
    ((removeMemberC exSt "adminaaaaaaa" true "clubaaaaaaaa" "useraaaaaaaa").2 =
      .ok ()) ∧
    ((findClub (removeMemberC exSt "adminaaaaaaa" true "clubaaaaaaaa"
        "useraaaaaaaa").1 "clubaaaaaaaa").map ClubR.members =
      some ["userbbbbbbbb"]) := by
  constructor <;> rfl

/-- Club record with one target filtered out of the member list, as the
clubs-route removeMember stores it. -/
def clubWithout (club : ClubR) (targetId : String) : ClubR :=
  { club with members := club.members.filter (fun x => x ≠ targetId) }

/-- C1 amended: removeMember authorizes only the actor — given valid ids,
an existing club and a target in the member list, the call succeeds iff
the actor is the club's creator or an admin, and then the target (the
creator included) is removed from the member list. -/
theorem removeMemberC_actor_only_auth (st : St) (club : ClubR)
    (actorId : String) (actorAdmin : Bool) (clubId targetId : String)
    (hv : (isValidObjectId clubId && isValidObjectId targetId) = true)
    (hc : findClub st clubId = some club)
    (hm : targetId ∈ club.members) :
    ((removeMemberC st actorId actorAdmin clubId targetId).2 = .ok () ↔
      (club.createdBy = actorId ∨ actorAdmin = true)) ∧
    ((club.createdBy = actorId ∨ actorAdmin = true) →
      (findClub (removeMemberC st actorId actorAdmin clubId targetId).1
          clubId).map ClubR.members =
        some (club.members.filter (fun x => x ≠ targetId))) := by
  have hid : club.id = clubId := by
    unfold findClub at hc
    have h2 := List.find?_some hc
    simpa using h2
  have hid2 : ((clubWithout club targetId).id == clubId) = true := by
    simp [clubWithout, hid]
  by_cases hb : club.createdBy = actorId ∨ actorAdmin = true
  · have hok : (removeMemberC st actorId actorAdmin clubId targetId).2 = .ok () := by
      simp [removeMemberC, hc, hv, hm, hb]
      split <;> rfl
    have hfc : findClub (removeMemberC st actorId actorAdmin clubId targetId).1
        clubId = some (clubWithout club targetId) := by
      simp [removeMemberC, hc, hv, hm, hb]
      split
      · simpa [findClub, saveClub, clubWithout] using
          find?_replace (fun c => ClubR.id c == clubId)
            (clubWithout club targetId) st.clubs hid2 club hc
      · simpa [findClub, saveClub, clubWithout] using
          find?_replace (fun c => ClubR.id c == clubId)
            (clubWithout club targetId) st.clubs hid2 club hc
    refine ⟨⟨fun _ => hb, fun _ => hok⟩, fun _ => ?_⟩
    rw [hfc]
    rfl
  · have hres : (removeMemberC st actorId actorAdmin clubId targetId).2 =
        .error (.permission "Only the club creator or an admin can remove members.") := by
      simp [removeMemberC, hc, hv, hb]
    refine ⟨⟨fun h => ?_, fun h => absurd h hb⟩, fun h => absurd h hb⟩
    rw [hres] at h
    exact absurd h (by simp)

/-- Club record stored in `exSt`. -/
def exClub : ClubR :=
  { id := "clubaaaaaaaa", createdBy := "useraaaaaaaa",
    members := ["useraaaaaaaa", "userbbbbbbbb"] }

/-- First message stored in `exSt`: sent by Alice at time 0. -/
def exMsg1 : Msg :=
  { id := "mesgaaaaaaaa", clubId := "clubaaaaaaaa", user := "useraaaaaaaa",
    username := "Alice", avatar := "", message := "hello", timestamp := 0,
    deleted := false }

/-- C5: with a nonempty trimmed text, a valid id and an existing message,
editMessage succeeds iff the caller is the author and at most five minutes
elapsed since the send timestamp; once the window has elapsed the call
fails with a 403 permission error for every caller, the author included. -/
theorem editMessage_author_window_policy (st : St) (u id t : String) (n : Int)
    (m : Msg) (ht : jsTrim t ≠ "") (hv : isValidObjectId id = true)
    (hm : findMsg st id = some m) :
    ((∃ m', (editMessage st u id t n).2 = .ok m') ↔
      (m.user = u ∧ n - m.timestamp ≤ TIME_LIMIT_MS)) ∧
    (TIME_LIMIT_MS < n - m.timestamp →
      ∃ s, (editMessage st u id t n).2 = .error (.permission s)) := by
  by_cases ha : m.user = u
  · by_cases hw : n - m.timestamp ≤ TIME_LIMIT_MS
    · have hok : (editMessage st u id t n).2 = .ok { m with message := jsTrim t } := by
        simp [editMessage, ht, hv, hm, ha, not_lt.mpr hw]
      exact ⟨⟨fun _ => ⟨ha, hw⟩, fun _ => ⟨_, hok⟩⟩,
        fun hlt => absurd hlt (not_lt.mpr hw)⟩
    · have herr : (editMessage st u id t n).2 =
          .error (.permission "Messages can only be edited within five minutes of sending.") := by
        simp [editMessage, ht, hv, hm, ha, not_le.mp hw]
      refine ⟨⟨fun h => ?_, fun h => absurd h.2 hw⟩, fun _ => ⟨_, herr⟩⟩
      obtain ⟨m', hm'⟩ := h
      rw [herr] at hm'
      exact absurd hm' (by simp)
  · have herr : (editMessage st u id t n).2 =
        .error (.permission "You can only edit your own messages.") := by
      simp [editMessage, ht, hv, hm, ha]
    refine ⟨⟨fun h => ?_, fun h => absurd h.1 ha⟩, fun _ => ⟨_, herr⟩⟩
    obtain ⟨m', hm'⟩ := h
    rw [herr] at hm'
    exact absurd hm' (by simp)

/-- C6: with a valid id, an existing message and an existing owning club,
deleteMessage succeeds iff the caller is an admin, or the club's creator,
or the author within five minutes of the send timestamp — admins and the
creator face no time window — and every failing case is the 403 permission
error. -/
theorem deleteMessage_policy (st : St) (u : String) (a : Bool) (id : String)
    (n : Int) (m : Msg) (club : ClubR)
    (hv : isValidObjectId id = true) (hm : findMsg st id = some m)
    (hc : findClub st m.clubId = some club) :
    ((deleteMessage st u a id n).2 = .ok () ↔
      (a = true ∨ club.createdBy = u ∨
        (m.user = u ∧ n - m.timestamp ≤ TIME_LIMIT_MS))) ∧
    ((deleteMessage st u a id n).2 ≠ .ok () →
      (deleteMessage st u a id n).2 =
        .error (.permission "You do not have permission to delete this message.")) := by
  by_cases hp : a = true ∨ club.createdBy = u ∨
      (m.user = u ∧ n - m.timestamp ≤ TIME_LIMIT_MS)
  · have hok : (deleteMessage st u a id n).2 = .ok () := by
      rcases hp with h | h | ⟨h1, h2⟩
      · simp [deleteMessage, hv, hm, hc, h]
      · simp [deleteMessage, hv, hm, hc, h]
      · simp [deleteMessage, hv, hm, hc, h1, h2]
    exact ⟨⟨fun _ => hp, fun _ => hok⟩, fun h => absurd hok h⟩
  · have herr : (deleteMessage st u a id n).2 =
        .error (.permission "You do not have permission to delete this message.") := by
      push_neg at hp
      obtain ⟨h1, h2, h3⟩ := hp
      have hcond : (a = false ∧ ¬club.createdBy = u) ∧
          (m.user = u → TIME_LIMIT_MS + m.timestamp < n) := by
        refine ⟨⟨Bool.eq_false_iff.mpr h1, h2⟩, fun hu2 => ?_⟩
        have h4 := h3 hu2
        omega
      simp [deleteMessage, hv, hm, hc]
      rw [if_pos hcond]
    refine ⟨⟨fun h => ?_, fun h => absurd h hp⟩, fun _ => herr⟩
    rw [herr] at h
    exact absurd h (by simp)

/-- C7: with a nonempty trimmed text, a valid club id and an existing
club, a sender who is not in the member list gets the 403 permission error
and the store — in particular the club's message count — is unchanged. -/
theorem sendMessage_nonmember_rejected (st : St) (u c t : String) (n : Int)
    (i : String) (club : ClubR) (ht : jsTrim t ≠ "")
    (hv : isValidObjectId c = true) (hc : findClub st c = some club)
    (hu : u ∉ club.members) :
    sendMessage st u c t n i =
      (st, .error (.permission "You must be a member of this club to chat.")) ∧
    ((sendMessage st u c t n i).1.messages.filter
        (fun m => m.clubId == c)).length =
      (st.messages.filter (fun m => m.clubId == c)).length := by
  have h1 : sendMessage st u c t n i =
      (st, .error (.permission "You must be a member of this club to chat.")) := by
    simp [sendMessage, ht, hv, hc, hu]
  exact ⟨h1, by rw [h1]⟩

/-- C10: even an authenticated requester who is not in the club's member
list gets the 403 permission error from listMessages and no messages. -/
theorem listMessages_nonmember_rejected (st : St) (u c : String)
    (L : Option Int) (club : ClubR) (hv : isValidObjectId c = true)
    (hc : findClub st c = some club) (hu : u ∉ club.members) :
    listMessages st u c L =
      .error (.permission "You must be a member of this club to view messages.") := by
  simp [listMessages, hv, hc, hu]

/-- C1 amended witness: the creator removes Bob from the concrete store. -/
theorem removeMemberC_actor_only_auth_witness :
    ((removeMemberC exSt "useraaaaaaaa" false "clubaaaaaaaa" "userbbbbbbbb").2 =
        .ok () ↔
      (exClub.createdBy = "useraaaaaaaa" ∨ false = true)) ∧
    ((exClub.createdBy = "useraaaaaaaa" ∨ false = true) →
      (findClub (removeMemberC exSt "useraaaaaaaa" false "clubaaaaaaaa"
          "userbbbbbbbb").1 "clubaaaaaaaa").map ClubR.members =
        some (exClub.members.filter (fun x => x ≠ "userbbbbbbbb"))) :=
  removeMemberC_actor_only_auth exSt exClub "useraaaaaaaa" false "clubaaaaaaaa"
    "userbbbbbbbb" (by decide) (by decide) (by decide)

/-- C5 witness: Alice edits her own message 100 ms after sending it. -/
theorem editMessage_author_window_policy_witness :
    ((∃ m', (editMessage exSt "useraaaaaaaa" "mesgaaaaaaaa" "hey" 100).2 =
        .ok m') ↔
      (exMsg1.user = "useraaaaaaaa" ∧ 100 - exMsg1.timestamp ≤ TIME_LIMIT_MS)) ∧
    (TIME_LIMIT_MS < 100 - exMsg1.timestamp →
      ∃ s, (editMessage exSt "useraaaaaaaa" "mesgaaaaaaaa" "hey" 100).2 =
        .error (.permission s)) :=
  editMessage_author_window_policy exSt "useraaaaaaaa" "mesgaaaaaaaa" "hey" 100
    exMsg1 (by decide) (by decide) (by decide)

/-- C6 witness: the admin deletes Alice's message long after the window. -/
theorem deleteMessage_policy_witness :
    ((deleteMessage exSt "adminaaaaaaa" true "mesgaaaaaaaa" 10000000).2 =
        .ok () ↔
      (true = true ∨ exClub.createdBy = "adminaaaaaaa" ∨
        (exMsg1.user = "adminaaaaaaa" ∧
          10000000 - exMsg1.timestamp ≤ TIME_LIMIT_MS))) ∧
    ((deleteMessage exSt "adminaaaaaaa" true "mesgaaaaaaaa" 10000000).2 ≠
        .ok () →
      (deleteMessage exSt "adminaaaaaaa" true "mesgaaaaaaaa" 10000000).2 =
        .error (.permission "You do not have permission to delete this message.")) :=
  deleteMessage_policy exSt "adminaaaaaaa" true "mesgaaaaaaaa" 10000000 exMsg1
    exClub (by decide) (by decide) (by decide)

/-- C7 witness: the non-member Carol tries to send to the club. -/
theorem sendMessage_nonmember_rejected_witness :
    sendMessage exSt "usercccccccc" "clubaaaaaaaa" "hello there" 0
        "mesgcccccccc" =
      (exSt, .error (.permission "You must be a member of this club to chat.")) ∧
    ((sendMessage exSt "usercccccccc" "clubaaaaaaaa" "hello there" 0
          "mesgcccccccc").1.messages.filter
        (fun m => m.clubId == "clubaaaaaaaa")).length =
      (exSt.messages.filter (fun m => m.clubId == "clubaaaaaaaa")).length :=
  sendMessage_nonmember_rejected exSt "usercccccccc" "clubaaaaaaaa"
    "hello there" 0 "mesgcccccccc" exClub (by decide) (by decide) (by decide)
    (by decide)

/-- C10 witness: the non-member Carol requests the club history. -/
theorem listMessages_nonmember_rejected_witness :
    listMessages exSt "usercccccccc" "clubaaaaaaaa" (some 10) =
      .error (.permission "You must be a member of this club to view messages.") :=
  listMessages_nonmember_rejected exSt "usercccccccc" "clubaaaaaaaa" (some 10)
    exClub (by decide) (by decide) (by decide)

/-- C4 amended: a successful editMessage mutates exactly the message's
body text, in place under the same identifier; the club id, author id,
author name, avatar, deleted flag AND the timestamp are all unchanged, and
no club or user record changes. -/
theorem editMessage_frame (st : St) (u id t : String) (n : Int) (m m' : Msg)
    (hm : findMsg st id = some m)
    (h : (editMessage st u id t n).2 = .ok m') :
    m' = { m with message := jsTrim t } ∧
    m'.id = m.id ∧ m'.clubId = m.clubId ∧ m'.user = m.user ∧
    m'.username = m.username ∧ m'.avatar = m.avatar ∧
    m'.timestamp = m.timestamp ∧ m'.deleted = m.deleted ∧
    (editMessage st u id t n).1.clubs = st.clubs ∧
    (editMessage st u id t n).1.users = st.users ∧
    (editMessage st u id t n).1.messages = saveMsg st.messages id m' := by
  by_cases h1 : jsTrim t = ""
  · simp [editMessage, h1] at h
  · by_cases h2 : isValidObjectId id = true
    · by_cases h3 : m.user = u
      · subst h3
        by_cases h4 : n - m.timestamp ≤ TIME_LIMIT_MS
        · have hm' : m' = { m with message := jsTrim t } := by
            simp [editMessage, h1, h2, hm, not_lt.mpr h4] at h
            exact h.symm
          subst hm'
          refine ⟨rfl, rfl, rfl, rfl, rfl, rfl, rfl, rfl, ?_, ?_, ?_⟩ <;>
            simp [editMessage, h1, h2, hm, not_lt.mpr h4]
        · simp [editMessage, h1, h2, hm, not_le.mp h4] at h
      · simp [editMessage, h1, h2, hm, h3] at h
    · simp [editMessage, h1, h2] at h

/-- Case split for sendMessage: either the store is untouched or the call
succeeded. -/
theorem sendMessage_cases (st : St) (u c t : String) (n : Int) (i : String) :
    (sendMessage st u c t n i).1 = st ∨
      (∃ m, (sendMessage st u c t n i).2 = .ok m) := by
  unfold sendMessage
  dsimp only
  repeat' split
  all_goals simp

/-- Case split for editMessage: either the store is untouched or the call
succeeded. -/
theorem editMessage_cases (st : St) (u id t : String) (n : Int) :
    (editMessage st u id t n).1 = st ∨
      (∃ m, (editMessage st u id t n).2 = .ok m) := by
  unfold editMessage
  dsimp only
  repeat' split
  all_goals simp

/-- Case split for deleteMessage: either the store is untouched or the
call succeeded. -/
theorem deleteMessage_cases (st : St) (u : String) (a : Bool) (id : String)
    (n : Int) :
    (deleteMessage st u a id n).1 = st ∨
      (deleteMessage st u a id n).2 = .ok () := by
  unfold deleteMessage
  dsimp only
  repeat' split
  all_goals simp

/-- Case split for the clubs-route removeMember: either the store is
untouched or the call succeeded. -/
theorem removeMemberC_cases (st : St) (a : String) (aa : Bool) (c t : String) :
    (removeMemberC st a aa c t).1 = st ∨
      (removeMemberC st a aa c t).2 = .ok () := by
  unfold removeMemberC
  dsimp only
  repeat' split
  all_goals simp

/-- Case split for the messages-route removeMember: the store is
untouched, or the call succeeded, or the call failed with the post-save
"User not found." error. -/
theorem removeMemberM_cases (st : St) (a : String) (aa : Bool) (c t : String) :
    (removeMemberM st a aa c t).1 = st ∨
      (removeMemberM st a aa c t).2 = .ok () ∨
      (removeMemberM st a aa c t).2 = .error (.notFound "User not found.") := by
  unfold removeMemberM
  dsimp only
  repeat' split
  all_goals simp

/-- C3 amended: every failed check short-circuits with an error and no
partial side effect — for sendMessage, editMessage, deleteMessage and the
clubs-route removeMember on every error, and for the messages-route
removeMember on every error except its post-save "User not found." failure,
whose existence check runs only after the club was already saved. -/
theorem checks_no_partial_effects :
    (∀ st u c t n i e, (sendMessage st u c t n i).2 = .error e →
      (sendMessage st u c t n i).1 = st) ∧
    (∀ st u id t n e, (editMessage st u id t n).2 = .error e →
      (editMessage st u id t n).1 = st) ∧
    (∀ st u a id n e, (deleteMessage st u a id n).2 = .error e →
      (deleteMessage st u a id n).1 = st) ∧
    (∀ st a aa c t e, (removeMemberC st a aa c t).2 = .error e →
      (removeMemberC st a aa c t).1 = st) ∧
    (∀ st a aa c t e, (removeMemberM st a aa c t).2 = .error e →
      e ≠ .notFound "User not found." → (removeMemberM st a aa c t).1 = st) := by
  refine ⟨fun st u c t n i e h => ?_, fun st u id t n e h => ?_,
    fun st u a id n e h => ?_, fun st a aa c t e h => ?_,
    fun st a aa c t e h hne => ?_⟩
  · rcases sendMessage_cases st u c t n i with hl | ⟨m, hr⟩
    · exact hl
    · rw [hr] at h
      exact absurd h (by simp)
  · rcases editMessage_cases st u id t n with hl | ⟨m, hr⟩
    · exact hl
    · rw [hr] at h
      exact absurd h (by simp)
  · rcases deleteMessage_cases st u a id n with hl | hr
    · exact hl
    · rw [hr] at h
      exact absurd h (by simp)
  · rcases removeMemberC_cases st a aa c t with hl | hr
    · exact hl
    · rw [hr] at h
      exact absurd h (by simp)
  · rcases removeMemberM_cases st a aa c t with hl | hr | hr
    · exact hl
    · rw [hr] at h
      exact absurd h (by simp)
    · rw [hr] at h
      injection h with h2
      exact absurd h2.symm hne

/-- Store whose club lists Bob as a member although Bob's user record is
absent from the User collection. -/
def cexSt3 : St :=
  { clubs := [{ id := "clubaaaaaaaa", createdBy := "useraaaaaaaa",
                members := ["useraaaaaaaa", "userbbbbbbbb"] }]
    users := [{ id := "useraaaaaaaa", username := "Alice", avatar := "",
                joinedClubs := ["clubaaaaaaaa"], isAdmin := false }]
    messages := [] }

/-- C3 counterexample: the creator's removeMember call (messages route)
for Bob, whose user record is missing, fails with the 404 "User not found."
— yet Bob has already been removed from the club's member list, so the
failed call left a partial side effect. -/
theorem removeMemberM_partial_effect_cex :
    ((removeMemberM cexSt3 "useraaaaaaaa" false "clubaaaaaaaa"
        "userbbbbbbbb").2 = .error (.notFound "User not found.")) ∧
    ((findClub (removeMemberM cexSt3 "useraaaaaaaa" false "clubaaaaaaaa"
        "userbbbbbbbb").1 "clubaaaaaaaa").map ClubR.members =
      some ["useraaaaaaaa"]) ∧
    (removeMemberM cexSt3 "useraaaaaaaa" false "clubaaaaaaaa"
        "userbbbbbbbb").1 ≠ cexSt3 :=
  ⟨rfl, rfl, by decide⟩

/-- C3 amended witness: the non-member Carol's rejected send leaves the
concrete store untouched. -/
theorem checks_no_partial_effects_witness :
    (sendMessage exSt "usercccccccc" "clubaaaaaaaa" "yo" 0 "mesgdddddddd").1 =
      exSt :=
  checks_no_partial_effects.1 exSt "usercccccccc" "clubaaaaaaaa" "yo" 0
    "mesgdddddddd" (.permission "You must be a member of this club to chat.")
    rfl

/-- C4 counterexample: Alice's successful edit at time 1000 of her
message sent at time 0 leaves the stored timestamp at 0 — the route writes
only the `message` field, never the timestamp, so no "text + timestamp"
mutation happens. -/
theorem editMessage_keeps_timestamp_cex :
    ((editMessage exSt "useraaaaaaaa" "mesgaaaaaaaa" "hello world" 1000).2 =
      .ok { exMsg1 with message := "hello world" }) ∧
    ((findMsg (editMessage exSt "useraaaaaaaa" "mesgaaaaaaaa" "hello world"
        1000).1 "mesgaaaaaaaa").map Msg.timestamp = some 0) ∧
    exMsg1.timestamp ≠ 1000 :=
  ⟨rfl, rfl, by decide⟩

/-- C4 amended witness: the frame condition evaluated on Alice's
concrete edit. -/
theorem editMessage_frame_witness :
    ({ exMsg1 with message := "hello world" } : Msg) =
      { exMsg1 with message := jsTrim "hello world" } ∧
    Msg.id { exMsg1 with message := "hello world" } = exMsg1.id ∧
    Msg.clubId { exMsg1 with message := "hello world" } = exMsg1.clubId ∧
    Msg.user { exMsg1 with message := "hello world" } = exMsg1.user ∧
    Msg.username { exMsg1 with message := "hello world" } = exMsg1.username ∧
    Msg.avatar { exMsg1 with message := "hello world" } = exMsg1.avatar ∧
    Msg.timestamp { exMsg1 with message := "hello world" } = exMsg1.timestamp ∧
    Msg.deleted { exMsg1 with message := "hello world" } = exMsg1.deleted ∧
    (editMessage exSt "useraaaaaaaa" "mesgaaaaaaaa" "hello world"
        1000).1.clubs = exSt.clubs ∧
    (editMessage exSt "useraaaaaaaa" "mesgaaaaaaaa" "hello world"
        1000).1.users = exSt.users ∧
    (editMessage exSt "useraaaaaaaa" "mesgaaaaaaaa" "hello world"
        1000).1.messages = saveMsg exSt.messages "mesgaaaaaaaa"
      { exMsg1 with message := "hello world" } :=
  editMessage_frame exSt "useraaaaaaaa" "mesgaaaaaaaa" "hello world" 1000
    exMsg1 { exMsg1 with message := "hello world" } (by decide) rfl



/-- C8: for a member of an existing club, listMessages returns the club's
messages sorted in ascending send-time order; the count is the club's
message count capped at min(L, 500) when the parsed limit L is a positive
number and at 200 otherwise, and when the cap is not exceeded the result
is exactly the club's messages (a permutation, reordered by send time). -/
theorem listMessages_sorted_capped (st : St) (u c : String) (L : Option Int)
    (club : ClubR) (hv : isValidObjectId c = true)
    (hc : findClub st c = some club) (hmem : u ∈ club.members) :
    ∃ msgs, listMessages st u c L = .ok msgs ∧
      List.Sorted tsLe msgs ∧
      msgs.length = min ((match L with
          | some n => if 0 < n then min n 500 else 200
          | none => (200 : Int)).toNat)
        (st.messages.filter (fun m => m.clubId == c)).length ∧
      (∀ m ∈ msgs, m ∈ st.messages ∧ m.clubId = c) ∧
      ((st.messages.filter (fun m => m.clubId == c)).length ≤
          (match L with
            | some n => if 0 < n then min n 500 else 200
            | none => (200 : Int)).toNat →
        msgs.Perm (st.messages.filter (fun m => m.clubId == c))) := by
  refine ⟨((st.messages.filter (fun m => m.clubId == c)).insertionSort
      tsLe).take (match L with
        | some n => if 0 < n then min n 500 else 200
        | none => (200 : Int)).toNat, ?_, ?_, ?_, ?_, ?_⟩
  · simp [listMessages, hv, hc, hmem]
  · exact List.Pairwise.sublist (List.take_sublist _ _)
      (List.sorted_insertionSort tsLe _)
  · rw [List.length_take,
      (List.perm_insertionSort tsLe
        (st.messages.filter (fun m => m.clubId == c))).length_eq]
  · intro m hmm2
    have h1 : m ∈ (st.messages.filter (fun m => m.clubId == c)).insertionSort tsLe :=
      List.mem_of_mem_take hmm2
    have h2 : m ∈ st.messages.filter (fun m => m.clubId == c) :=
      ((List.perm_insertionSort tsLe _).mem_iff).mp h1
    have h3 := List.mem_filter.mp h2
    exact ⟨h3.1, by simpa using h3.2⟩
  · intro hle
    rw [List.take_of_length_le]
    · exact List.perm_insertionSort tsLe _
    · rw [(List.perm_insertionSort tsLe
        (st.messages.filter (fun m => m.clubId == c))).length_eq]
      exact hle

/-- C8 witness: Alice lists the club history with limit 10 on the
concrete store. -/
theorem listMessages_sorted_capped_witness :
    ∃ msgs, listMessages exSt "useraaaaaaaa" "clubaaaaaaaa" (some 10) =
        .ok msgs ∧
      List.Sorted tsLe msgs ∧
      msgs.length = min ((match (some 10 : Option Int) with
          | some n => if 0 < n then min n 500 else 200
          | none => (200 : Int)).toNat)
        (exSt.messages.filter (fun m => m.clubId == "clubaaaaaaaa")).length ∧
      (∀ m ∈ msgs, m ∈ exSt.messages ∧ m.clubId = "clubaaaaaaaa") ∧
      ((exSt.messages.filter (fun m => m.clubId == "clubaaaaaaaa")).length ≤
          (match (some 10 : Option Int) with
            | some n => if 0 < n then min n 500 else 200
            | none => (200 : Int)).toNat →
        msgs.Perm (exSt.messages.filter
          (fun m => m.clubId == "clubaaaaaaaa"))) :=
  listMessages_sorted_capped exSt "useraaaaaaaa" "clubaaaaaaaa" (some 10)
    exClub (by decide) (by decide) (by decide)

end ClubLit
